import Mathlib

/-!
Shallow embedding of the authentication / authorization core of the
sensor-integration-system backend (src/database.js: the SQLite schema
followed by the Express route handlers).

Data model: the three SQLite tables are lists of rows.  The `users`
CREATE TABLE (src/database.js lines 15-23) declares ONLY the columns
id, username, email, password, created_at.  The login handler also
reads `user.failed_attempts` and `user.is_locked` and issues UPDATE
statements against those columns; since the columns are not in the
schema, a SELECT * row carries no such property (JavaScript yields
`undefined`, modelled as `none`) and an `UPDATE users SET
failed_attempts = ...` statement fails with a no-such-column error,
which the handler's callback only logs, leaving the table unchanged.
Both effects are modelled explicitly: row fields that may be absent are
`Option Int`, and `updateUsersSet` applies a SET list only when every
named column exists in `usersTableColumns`.
-/

/-- A row of the `users` table as the login handler sees it after
`SELECT * FROM users WHERE email = ?`.  `failed_attempts` and
`is_locked` are `Option Int`: `none` models a column absent from the
row (JavaScript `undefined`), which is what the schema of
src/database.js lines 15-23 produces. -/
structure UserRow where
  id : Nat
  username : String
  email : String
  password : String
  failed_attempts : Option Int
  is_locked : Option Int
deriving DecidableEq, Repr

/-- A row of the `devices` table (src/database.js lines 26-37). -/
structure DeviceRow where
  id : Nat
  user_id : Nat
  device_name : String
  device_type : String
  device_id : String
  status : String
deriving DecidableEq, Repr

/-- A row of the `sensor_data` table (src/database.js lines 40-50). -/
structure SensorRow where
  id : Nat
  device_id : String
  temperature : Int
  humidity : Int
  pressure : Int
  timestamp : Nat
deriving DecidableEq, Repr

/-- The persistent state: the three tables created in src/database.js. -/
structure DB where
  users : List UserRow
  devices : List DeviceRow
  sensor_data : List SensorRow
deriving DecidableEq, Repr

/-- The columns the `users` CREATE TABLE actually declares
(src/database.js lines 15-23).  Neither `failed_attempts` nor
`is_locked` is among them. -/
def usersTableColumns : List String :=
  ["id", "username", "email", "password", "created_at"]

/-- Apply one `column = value` assignment of an UPDATE statement to a
user row (only the two columns the handlers ever SET are interpreted). -/
def setUserCol (u : UserRow) (c : String × Int) : UserRow :=
  if c.1 = "failed_attempts" then { u with failed_attempts := some c.2 }
  else if c.1 = "is_locked" then { u with is_locked := some c.2 }
  else u

/-- `UPDATE users SET c1 = v1, ... WHERE id = uid`.  SQLite rejects the
whole statement with a no-such-column error when any SET column is not
declared in the table; the handlers' callbacks only log that error, so
the table is left unchanged in that case. -/
def updateUsersSet (cols : List (String × Int)) (uid : Nat) (db : DB) : DB :=
  if cols.all (fun c => usersTableColumns.contains c.1) then
    { db with users := db.users.map (fun u => if u.id = uid then cols.foldl setUserCol u else u) }
  else
    db

/-- Outcomes of `POST /api/auth/login` (src/database.js lines 129-219),
one constructor per `res.status(...).json(...)` site. -/
inductive LoginResponse where
  | badRequest
  | invalidCredentials
  | accountLocked
  | lockedAfterAttempts
  | invalidCredentialsRemaining (remaining : Int)
  | loginSuccess (id : Nat) (username : String)
deriving DecidableEq, Repr

/-- The HTTP status and error/message string each login outcome is
rendered with in src/database.js lines 129-219. -/
def loginHttp : LoginResponse → Nat × String
  | .badRequest => (400, "Email and password required")
  | .invalidCredentials => (401, "Invalid credentials")
  | .accountLocked => (403, "Account locked due to too many failed attempts.")
  | .lockedAfterAttempts => (403, "Account locked after 3 failed attempts.")
  | .invalidCredentialsRemaining r =>
      (401, "Invalid credentials. " ++ toString r ++ " attempts left.")
  | .loginSuccess _ _ => (200, "Login successful")

/-- The `POST /api/auth/login` handler (src/database.js lines 129-219).
`vrfy pw hash` abstracts `bcrypt.compare(password, user.password)`
(the bcryptjs library is external to the repository).  The handler:
missing fields give 400; no row for the email gives 401 Invalid
credentials; `user.is_locked === 1` gives the locked 403; otherwise a
wrong password computes `newAttempts = (user.failed_attempts || 0) + 1`
and either locks (newAttempts >= 3) or reports the remaining attempts,
while a correct password resets `failed_attempts` to 0 and succeeds.
Every UPDATE goes through `updateUsersSet`, which is a no-op whenever a
SET column is missing from the schema. -/
def loginStep (vrfy : String → String → Bool) (db : DB) (email pw : String) :
    DB × LoginResponse :=
  if email = "" ∨ pw = "" then (db, .badRequest)
  else
    match db.users.find? (fun u => u.email == email) with
    | none => (db, .invalidCredentials)
    | some user =>
      if user.is_locked = some 1 then (db, .accountLocked)
      else if vrfy pw user.password then
        (updateUsersSet [("failed_attempts", 0)] user.id db,
         .loginSuccess user.id user.username)
      else
        let newAttempts : Int := user.failed_attempts.getD 0 + 1
        if 3 ≤ newAttempts then
          (updateUsersSet [("failed_attempts", newAttempts), ("is_locked", 1)] user.id db,
           .lockedAfterAttempts)
        else
          (updateUsersSet [("failed_attempts", newAttempts)] user.id db,
           .invalidCredentialsRemaining (3 - newAttempts))

/-- Outcomes of `POST /api/auth/register` (src/database.js lines 89-126). -/
inductive RegisterResponse where
  | badRequest
  | conflict
  | created (id : Nat)
deriving DecidableEq, Repr

/-- The `POST /api/auth/register` handler (src/database.js lines
89-126).  `hash` abstracts `bcrypt.hash(password, 10)`; `newId` is the
AUTOINCREMENT id the INSERT would allocate.  The INSERT names only
username, email, password, so the stored row has no `failed_attempts`
or `is_locked` value. -/
def registerStep (hash : String → String) (db : DB) (username email pw : String)
    (newId : Nat) : DB × RegisterResponse :=
  if username = "" ∨ email = "" ∨ pw = "" then (db, .badRequest)
  else if db.users.any (fun u => u.username == username || u.email == email) then
    (db, .conflict)
  else
    ({ db with users := db.users ++
        [{ id := newId, username := username, email := email,
           password := hash pw, failed_attempts := none, is_locked := none }] },
     .created newId)

/-- Every user row is shaped as the `users` CREATE TABLE of
src/database.js lines 15-23 dictates: no `failed_attempts` and no
`is_locked` column, hence both read back as absent. -/
def schemaConsistent (db : DB) : Prop :=
  ∀ u ∈ db.users, u.failed_attempts = none ∧ u.is_locked = none

/-- Demo hasher standing in for bcrypt.hash in concrete evaluations. -/
def demoHash : String → String := fun p => "h:" ++ p

/-- Demo verifier standing in for bcrypt.compare in concrete
evaluations, consistent with `demoHash`. -/
def vrfyDemo : String → String → Bool := fun p h => h == "h:" ++ p

/-- The database right after `alice` registers with password `P1`
(spec scenario of §8). -/
def dbAlice : DB :=
  (registerStep demoHash { users := [], devices := [], sensor_data := [] }
    "alice" "alice@example.com" "P1" 1).1

/-- State after alice's first failed login with wrong password `X`. -/
def dbAliceF1 : DB := (loginStep vrfyDemo dbAlice "alice@example.com" "X").1

/-- State after alice's second failed login. -/
def dbAliceF2 : DB := (loginStep vrfyDemo dbAliceF1 "alice@example.com" "X").1

/-- State after alice's third failed login. -/
def dbAliceF3 : DB := (loginStep vrfyDemo dbAliceF2 "alice@example.com" "X").1

/-- Outcomes of `GET /api/sensor-data/:deviceId`
(src/database.js lines 300-324). -/
inductive SensorDataResponse where
  | deviceNotFound
  | rows (data : List SensorRow)
deriving DecidableEq, Repr

/-- The `GET /api/sensor-data/:deviceId` handler (src/database.js lines
300-324).  It first runs `SELECT * FROM devices WHERE device_id = ? AND
user_id = ?`; when that yields no row (device absent, or present with a
different owner) it answers 404 `Device not found`, with no separate
forbidden outcome.  Otherwise it returns the device's readings ordered
by timestamp descending, limited to `lim`. -/
def getSensorData (db : DB) (userId : Nat) (deviceId : String) (lim : Nat) :
    SensorDataResponse :=
  match db.devices.find? (fun d => d.device_id == deviceId && d.user_id == userId) with
  | none => .deviceNotFound
  | some _ =>
      .rows (((db.sensor_data.filter (fun s => s.device_id == deviceId)).mergeSort
        (fun a b => decide (b.timestamp ≤ a.timestamp))).take lim)

/-- Outcomes of `POST /api/demo/generate-data/:deviceId`
(src/database.js lines 327-344). -/
inductive GenerateDataResponse where
  | genError
  | genOk (temperature humidity pressure : Int)
deriving DecidableEq, Repr

/-- The `POST /api/demo/generate-data/:deviceId` handler
(src/database.js lines 327-344).  `userId` is the authenticated
`req.user.id`; the handler never consults it, performs no lookup in the
`devices` table, and directly INSERTs a reading for `deviceId`.  The
FOREIGN KEY on `sensor_data.device_id` is not enforced because the code
never enables `PRAGMA foreign_keys`, so the INSERT also succeeds for a
device identifier with no `devices` row.  The random readings and the
AUTOINCREMENT id / timestamp are parameters. -/
def generateData (db : DB) (userId : Nat) (deviceId : String)
    (temperature humidity pressure : Int) (newId ts : Nat) :
    DB × GenerateDataResponse :=
  ({ db with sensor_data := db.sensor_data ++
      [{ id := newId, device_id := deviceId, temperature := temperature,
         humidity := humidity, pressure := pressure, timestamp := ts }] },
   .genOk temperature humidity pressure)

/-- Outcomes of `DELETE /api/devices/:id` (src/database.js lines 277-295). -/
inductive DeleteResponse where
  | notFound
  | deleted
deriving DecidableEq, Repr

/-- The `DELETE /api/devices/:id` handler (src/database.js lines
277-295): `DELETE FROM devices WHERE id = ? AND user_id = ?`, then 404
`Device not found` when `this.changes === 0`, else a success message.
`changes = 0` holds exactly when the filter removed nothing, i.e. when
the surviving list has the same length as the original. -/
def deleteDevice (db : DB) (userId : Nat) (rowId : Nat) : DB × DeleteResponse :=
  if (db.devices.filter (fun d => !(d.id == rowId && d.user_id == userId))).length =
      db.devices.length then
    (db, .notFound)
  else
    ({ db with
        devices := db.devices.filter (fun d => !(d.id == rowId && d.user_id == userId)) },
     .deleted)

/-- Modelled from the spec: the signed session token of §3 and §4.3.
The jsonwebtoken library that produces and checks the wire form is an
external dependency, not code under src/; the opaque token is modelled
as its payload `{id, username}` (what src/database.js lines 202-206
signs), issued-at, expiry, and a signature over all of them. -/
structure Token where
  payloadId : Nat
  payloadUsername : String
  iat : Nat
  exp : Nat
  sig : String
deriving DecidableEq, Repr

/-- The configured token lifetime: `expiresIn: '24h'`
(src/database.js lines 110-114 and 202-206), in seconds. -/
def tokenLifetime : Nat := 86400

/-- Modelled from the spec: the message authentication code over the
token's payload and times, keyed by the process-wide secret (§4.3
"signed token ... using a process-wide secret key"). -/
def tokenSignature (secret : String) (id : Nat) (username : String) (iat expiry : Nat) :
    String :=
  secret ++ ":" ++ toString id ++ ":" ++ username ++ ":" ++ toString iat ++ ":" ++
    toString expiry

/-- Modelled from the spec: `issue(identity) -> token` (§4.3), as
configured by `jwt.sign({id, username}, secret, {expiresIn: '24h'})` in
src/database.js lines 202-206: the expiry is 24 hours after issuance. -/
def jwtSign (secret : String) (id : Nat) (username : String) (now : Nat) : Token :=
  { payloadId := id, payloadUsername := username, iat := now,
    exp := now + tokenLifetime,
    sig := tokenSignature secret id username now (now + tokenLifetime) }

/-- Modelled from the spec: the outcomes of `verify(token)` (§4.3):
the payload on success, INVALID_SIGNATURE, EXPIRED, or MALFORMED. -/
inductive VerifyResult where
  | okPayload (id : Nat) (username : String)
  | errInvalidSig
  | errExpired
  | errMalformed
deriving DecidableEq, Repr

/-- Modelled from the spec: `verify(token) -> identity | error` (§4.3),
purely functional over the secret, the token and the current time: the
signature is checked first, then the expiry (expired once the lifetime
has elapsed, i.e. when `exp ≤ now`). -/
def jwtVerifyTok (secret : String) (t : Token) (now : Nat) : VerifyResult :=
  if t.sig = tokenSignature secret t.payloadId t.payloadUsername t.iat t.exp then
    if t.exp ≤ now then .errExpired
    else .okPayload t.payloadId t.payloadUsername
  else .errInvalidSig

/-- Modelled from the spec: the wire encoding of the opaque token
string carried in the Authorization header. -/
def encodeToken (t : Token) : String :=
  toString t.payloadId ++ "|" ++ t.payloadUsername ++ "|" ++ toString t.iat ++ "|" ++
    toString t.exp ++ "|" ++ t.sig

/-- Split a character list at every occurrence of `sep` (the semantics
of JavaScript `String.prototype.split` with a one-character
separator). -/
def splitChars (sep : Char) : List Char → List (List Char)
  | [] => [[]]
  | c :: cs =>
    let rest := splitChars sep cs
    if c = sep then [] :: rest
    else
      match rest with
      | [] => [[c]]
      | r :: rs => (c :: r) :: rs

/-- Parse a nonempty all-digit character list as a natural number. -/
def natFromChars (cs : List Char) : Option Nat :=
  if cs = [] then none
  else
    cs.foldl
      (fun acc c =>
        match acc with
        | none => none
        | some n => if c.isDigit then some (n * 10 + (c.toNat - 48)) else none)
      (some 0)

/-- Modelled from the spec: parsing of the opaque token string; a
string that does not parse is a MALFORMED token (§4.3). -/
def decodeToken (s : String) : Option Token :=
  match (splitChars '|' s.toList).map (fun cs => String.mk cs) with
  | [a, u, b, c, g] =>
    match natFromChars a.toList, natFromChars b.toList, natFromChars c.toList with
    | some i, some ia, some ex =>
        some { payloadId := i, payloadUsername := u, iat := ia, exp := ex, sig := g }
    | _, _, _ => none
  | _ => none

/-- Modelled from the spec: `verify` on the wire form, MALFORMED when
the string does not parse, otherwise the structural verification. -/
def jwtVerifyStr (secret tok : String) (now : Nat) : VerifyResult :=
  match decodeToken tok with
  | none => .errMalformed
  | some t => jwtVerifyTok secret t now

/-- Outcomes of the `authenticateToken` middleware
(src/database.js lines 69-84), one per response site. -/
inductive AuthResult where
  | missingToken
  | invalidOrExpired
  | authenticated (id : Nat) (username : String)
deriving DecidableEq, Repr

/-- The header plumbing of src/database.js lines 70-71:
`const token = authHeader && authHeader.split(' ')[1]`.  An absent or
empty (falsy) header yields no token; otherwise the token is the second
space-separated part, absent when there is none. -/
def extractBearer (authHeader : Option String) : Option String :=
  match authHeader with
  | none => none
  | some h =>
    if h = "" then none
    else ((splitChars ' ' h.toList).map (fun cs => String.mk cs))[1]?

/-- The `authenticateToken` middleware (src/database.js lines 69-84).
No (falsy) token: 401 `Access token required`.  Otherwise
`jwt.verify(token, secret, cb)`: EVERY verification error — bad
signature, expired, malformed — is answered by the single 403 `Invalid
or expired token` response; on success the payload identity is attached
to the request. -/
def authenticateToken (secret : String) (authHeader : Option String) (now : Nat) :
    AuthResult :=
  match extractBearer authHeader with
  | none => .missingToken
  | some tok =>
    if tok = "" then .missingToken
    else
      match jwtVerifyStr secret tok now with
      | .okPayload id username => .authenticated id username
      | _ => .invalidOrExpired

/-- The HTTP status and message of each `authenticateToken` outcome
(src/database.js lines 73-80). -/
def authHttp : AuthResult → Nat × String
  | .missingToken => (401, "Access token required")
  | .invalidOrExpired => (403, "Invalid or expired token")
  | .authenticated _ _ => (200, "")

/-- A database holding `bob` (id 2) owning device `dev-1`, and `carol`
(id 3) owning nothing (spec scenario of §8). -/
def dbBobDevice : DB :=
  { users := [{ id := 2, username := "bob", email := "bob@example.com",
                password := "h:P2", failed_attempts := none, is_locked := none },
              { id := 3, username := "carol", email := "carol@example.com",
                password := "h:P3", failed_attempts := none, is_locked := none }],
    devices := [{ id := 1, user_id := 2, device_name := "Sensor", device_type := "temperature",
                  device_id := "dev-1", status := "online" }],
    sensor_data := [] }

/-- A token string whose payload claims alice but whose signature was
not produced with the server secret. -/
def forgedTokenStr : String :=
  encodeToken { payloadId := 1, payloadUsername := "alice", iat := 0, exp := 86400,
                sig := "forged" }

/-- A correctly signed token for alice issued at time 0 (so expired
from time 86400 on). -/
def expiredTokenStr : String := encodeToken (jwtSign "s" 1 "alice" 0)

/-- A database whose single user row carries `is_locked = 1`
(reachable only if the `users` table had the lockout columns; used to
exercise the handler's locked branch). -/
def dbLocked : DB :=
  { users := [{ id := 7, username := "dave", email := "dave@example.com",
                password := "h:P7", failed_attempts := some 3, is_locked := some 1 }],
    devices := [], sensor_data := [] }

theorem updateUsersSet_failed_attempts_noop (n : Int) (uid : Nat) (db : DB) :
    updateUsersSet [("failed_attempts", n)] uid db = db := rfl

theorem updateUsersSet_lock_noop (n m : Int) (uid : Nat) (db : DB) :
    updateUsersSet [("failed_attempts", n), ("is_locked", m)] uid db = db := rfl

theorem loginStep_wrong_pw_schema (vrfy : String → String → Bool) (db : DB)
    (email pw : String) (u : UserRow)
    (hsc : schemaConsistent db)
    (he : email ≠ "") (hp : pw ≠ "")
    (hfind : db.users.find? (fun w => w.email == email) = some u)
    (hbad : vrfy pw u.password = false) :
    loginStep vrfy db email pw = (db, LoginResponse.invalidCredentialsRemaining 2) := by
  have hmem : u ∈ db.users := List.mem_of_find?_eq_some hfind
  obtain ⟨hfa, hlk⟩ := hsc u hmem
  simp only [loginStep, if_neg (not_or.mpr ⟨he, hp⟩), hfind, hlk, hfa, hbad]
  norm_num [updateUsersSet_failed_attempts_noop]
  intro h
  exact Option.noConfusion h

theorem loginStep_correct_pw_schema (vrfy : String → String → Bool) (db : DB)
    (email pw : String) (u : UserRow)
    (hsc : schemaConsistent db)
    (he : email ≠ "") (hp : pw ≠ "")
    (hfind : db.users.find? (fun w => w.email == email) = some u)
    (hok : vrfy pw u.password = true) :
    loginStep vrfy db email pw = (db, LoginResponse.loginSuccess u.id u.username) := by
  have hmem : u ∈ db.users := List.mem_of_find?_eq_some hfind
  obtain ⟨hfa, hlk⟩ := hsc u hmem
  simp only [loginStep, if_neg (not_or.mpr ⟨he, hp⟩), hfind, hlk, hok]
  norm_num [updateUsersSet_failed_attempts_noop]
  intro h
  exact Option.noConfusion h

theorem loginStep_unknown_email (vrfy : String → String → Bool) (db : DB)
    (email pw : String)
    (he : email ≠ "") (hp : pw ≠ "")
    (hnone : db.users.find? (fun w => w.email == email) = none) :
    loginStep vrfy db email pw = (db, LoginResponse.invalidCredentials) := by
  simp only [loginStep, if_neg (not_or.mpr ⟨he, hp⟩), hnone]

/-- C1: the claim says that after exactly 3 consecutive failed login
attempts the account state is LOCKED and every subsequent login fails
with a locked-account error regardless of password correctness.  The
code does not do this: on the spec's own scenario (register `alice`
with `P1`, fail three times with `X`, then log in with `P1`) the state
after the three failures is unchanged and not locked — the `users`
schema has no `is_locked`/`failed_attempts` columns, so the lock UPDATE
fails and the read of `failed_attempts` is always absent — the third
failure still answers `2 attempts left`, and the fourth attempt with
the correct password SUCCEEDS. -/
theorem C1_code_behavior :
    (∀ u ∈ dbAliceF3.users, u.is_locked ≠ some 1) ∧
    (loginStep vrfyDemo dbAliceF2 "alice@example.com" "X").2 =
      LoginResponse.invalidCredentialsRemaining 2 ∧
    (loginStep vrfyDemo dbAliceF3 "alice@example.com" "P1").2 =
      LoginResponse.loginSuccess 1 "alice" ∧
    dbAliceF3 = dbAlice := by decide

/-- C5: the claim says a failed attempt from `ACTIVE(count)` persists
`ACTIVE(count+1)` and reports `remaining = 3-(count+1)`.  The code only
delivers the second half: from the sole reachable state (counter column
absent, read as 0) a wrong-password login answers `remaining = 2` as
the claim computes, but the persisted state is completely unchanged —
the `UPDATE users SET failed_attempts = 1` statement targets a column
the `users` CREATE TABLE does not declare, so the counter is never
written. -/
theorem C5_code_behavior :
    loginStep vrfyDemo dbAlice "alice@example.com" "X" =
      (dbAlice, LoginResponse.invalidCredentialsRemaining 2) ∧
    (∀ u ∈ (loginStep vrfyDemo dbAlice "alice@example.com" "X").1.users,
      u.failed_attempts = none) := by decide

/-- C6: for every account the system can produce (rows shaped by the
`users` CREATE TABLE, whose effective failed-attempt count is 0 and
which is never locked), a login with the correct password succeeds with
the account's identity, and every user row of the resulting state has
effective failed-attempt count 0 and is not locked — i.e. the account
is in `ACTIVE(0)` after the successful login. -/
theorem C6_success_resets (vrfy : String → String → Bool) (db : DB)
    (email pw : String) (u : UserRow)
    (hsc : schemaConsistent db)
    (he : email ≠ "") (hp : pw ≠ "")
    (hfind : db.users.find? (fun w => w.email == email) = some u)
    (hok : vrfy pw u.password = true) :
    (loginStep vrfy db email pw).2 = LoginResponse.loginSuccess u.id u.username ∧
    ∀ w ∈ (loginStep vrfy db email pw).1.users,
      w.failed_attempts.getD 0 = 0 ∧ w.is_locked ≠ some 1 := by
  have h := loginStep_correct_pw_schema vrfy db email pw u hsc he hp hfind hok
  rw [h]
  refine ⟨rfl, ?_⟩
  intro w hw
  obtain ⟨hfa, hlk⟩ := hsc w hw
  rw [hfa, hlk]
  exact ⟨rfl, fun hh => Option.noConfusion hh⟩

theorem C6_witness :
    (loginStep vrfyDemo dbAlice "alice@example.com" "P1").2 =
      LoginResponse.loginSuccess 1 "alice" ∧
    ∀ w ∈ (loginStep vrfyDemo dbAlice "alice@example.com" "P1").1.users,
      w.failed_attempts.getD 0 = 0 ∧ w.is_locked ≠ some 1 :=
  C6_success_resets vrfyDemo dbAlice "alice@example.com" "P1"
    { id := 1, username := "alice", email := "alice@example.com",
      password := "h:P1", failed_attempts := none, is_locked := none }
    (by unfold schemaConsistent; decide) (by decide) (by decide) (by decide) (by decide)

/-- C8: whenever the login handler reads a user row carrying
`is_locked = 1`, the attempt fails immediately with the lockout error
and the stored state is unchanged; the statement is universally
quantified over the password and the bcrypt verdict function, so the
password comparison cannot affect the outcome.  (Under the schema in
src/database.js such a row can never be produced by this core — the
lock flag column does not exist — but the handler branch itself behaves
exactly as the claim states.) -/
theorem C8_locked_rejects (vrfy : String → String → Bool) (db : DB)
    (email pw : String) (u : UserRow)
    (he : email ≠ "") (hp : pw ≠ "")
    (hfind : db.users.find? (fun w => w.email == email) = some u)
    (hlocked : u.is_locked = some 1) :
    loginStep vrfy db email pw = (db, LoginResponse.accountLocked) := by
  simp [loginStep, if_neg (not_or.mpr ⟨he, hp⟩), hfind, hlocked]

theorem C8_witness :
    loginStep vrfyDemo dbLocked "dave@example.com" "P7" =
      (dbLocked, LoginResponse.accountLocked) :=
  C8_locked_rejects vrfyDemo dbLocked "dave@example.com" "P7"
    { id := 7, username := "dave", email := "dave@example.com",
      password := "h:P7", failed_attempts := some 3, is_locked := some 1 }
    (by decide) (by decide) (by decide) (by decide)

/-- C4: counterexample.  The claim says the response for a login with
an email that matches no account is indistinguishable from the response
for an existing account with a wrong password.  Two runs against the
same database with the same password, differing only in whether the
email exists, produce different responses: `(401, "Invalid
credentials")` versus `(401, "Invalid credentials. 2 attempts left.")`. -/
theorem C4_counterexample :
    loginHttp (loginStep vrfyDemo dbBobDevice "nosuch@example.com" "ZZZ").2 ≠
      loginHttp (loginStep vrfyDemo dbBobDevice "bob@example.com" "ZZZ").2 := by decide

/-- C4 amended: both bad-credential failure paths answer with HTTP
status 401 and a message that begins with `Invalid credentials`, but
the existing-account wrong-password path appends the remaining-attempt
count (`2 attempts left.` in every state the schema can produce), so
the two responses are distinguishable and reveal whether the email has
an account. -/
theorem C4_amended_generic (vrfy : String → String → Bool) (db : DB)
    (emailA emailB pw : String) (u : UserRow)
    (hsc : schemaConsistent db)
    (hA : emailA ≠ "") (hB : emailB ≠ "") (hp : pw ≠ "")
    (hnoA : db.users.find? (fun w => w.email == emailA) = none)
    (hfB : db.users.find? (fun w => w.email == emailB) = some u)
    (hbad : vrfy pw u.password = false) :
    loginHttp (loginStep vrfy db emailA pw).2 = (401, "Invalid credentials") ∧
    loginHttp (loginStep vrfy db emailB pw).2 =
      (401, "Invalid credentials. 2 attempts left.") ∧
    (loginHttp (loginStep vrfy db emailA pw).2).1 =
      (loginHttp (loginStep vrfy db emailB pw).2).1 ∧
    loginHttp (loginStep vrfy db emailA pw).2 ≠
      loginHttp (loginStep vrfy db emailB pw).2 := by
  have ha := loginStep_unknown_email vrfy db emailA pw hA hp hnoA
  have hb := loginStep_wrong_pw_schema vrfy db emailB pw u hsc hB hp hfB hbad
  rw [ha, hb]
  refine ⟨rfl, ?_, rfl, ?_⟩
  · show loginHttp (LoginResponse.invalidCredentialsRemaining 2) =
      (401, "Invalid credentials. 2 attempts left.")
    decide
  · show loginHttp LoginResponse.invalidCredentials ≠
      loginHttp (LoginResponse.invalidCredentialsRemaining 2)
    decide

theorem C4_witness :
    loginHttp (loginStep vrfyDemo dbBobDevice "nosuch@example.com" "ZZZ").2 =
      (401, "Invalid credentials") ∧
    loginHttp (loginStep vrfyDemo dbBobDevice "bob@example.com" "ZZZ").2 =
      (401, "Invalid credentials. 2 attempts left.") ∧
    (loginHttp (loginStep vrfyDemo dbBobDevice "nosuch@example.com" "ZZZ").2).1 =
      (loginHttp (loginStep vrfyDemo dbBobDevice "bob@example.com" "ZZZ").2).1 ∧
    loginHttp (loginStep vrfyDemo dbBobDevice "nosuch@example.com" "ZZZ").2 ≠
      loginHttp (loginStep vrfyDemo dbBobDevice "bob@example.com" "ZZZ").2 :=
  C4_amended_generic vrfyDemo dbBobDevice "nosuch@example.com" "bob@example.com" "ZZZ"
    { id := 2, username := "bob", email := "bob@example.com",
      password := "h:P2", failed_attempts := none, is_locked := none }
    (by unfold schemaConsistent; decide) (by decide) (by decide) (by decide)
    (by decide) (by decide) (by decide)

/-- C2: counterexample.  The claim says a sensor-data write on behalf
of an identity only succeeds when the device exists and is owned by
that identity.  In the code the `POST /api/demo/generate-data` handler
does no lookup at all: carol (id 3) successfully inserts a reading for
`dev-1`, which exists and is owned by bob (id 2 ≠ 3), and even for
`ghost`, a device identifier with no row. -/
theorem C2_counterexample :
    (generateData dbBobDevice 3 "dev-1" 20 50 990 1 0).2 =
      GenerateDataResponse.genOk 20 50 990 ∧
    (generateData dbBobDevice 3 "dev-1" 20 50 990 1 0).1.sensor_data ≠ [] ∧
    (∃ d ∈ dbBobDevice.devices, d.device_id = "dev-1" ∧ d.user_id ≠ 3) ∧
    (generateData dbBobDevice 3 "ghost" 20 50 990 1 0).2 =
      GenerateDataResponse.genOk 20 50 990 ∧
    (∀ d ∈ dbBobDevice.devices, d.device_id ≠ "ghost") := by decide

/-- C2 amended: the sensor-data READ checks, before returning data,
that a device with the requested identifier exists and is owned by the
authenticated identity (it proceeds past the not-found error exactly
when such a row exists); the sensor-data WRITE performs no ownership or
existence check and succeeds for every authenticated identity and every
device identifier. -/
theorem C2_amended_split (db : DB) (uid : Nat) (did : String) (lim : Nat)
    (t h p : Int) (nid ts : Nat) :
    (getSensorData db uid did lim ≠ SensorDataResponse.deviceNotFound ↔
      ∃ d ∈ db.devices, d.device_id = did ∧ d.user_id = uid) ∧
    (generateData db uid did t h p nid ts).2 = GenerateDataResponse.genOk t h p := by
  constructor
  · unfold getSensorData
    cases hf : db.devices.find? (fun d => d.device_id == did && d.user_id == uid) with
    | none =>
      constructor
      · intro hne; exact absurd rfl hne
      · rintro ⟨d, hd, h1, h2⟩
        have hnp := List.find?_eq_none.mp hf d hd
        simp [h1, h2] at hnp
    | some d =>
      have hmem := List.mem_of_find?_eq_some hf
      have hpd := List.find?_some hf
      simp only [Bool.and_eq_true, beq_iff_eq] at hpd
      constructor
      · intro _; exact ⟨d, hmem, hpd.1, hpd.2⟩
      · intro _ hEq; exact SensorDataResponse.noConfusion hEq
  · rfl

/-- C3: counterexample.  The claim says a mismatched owner yields a
FORBIDDEN outcome distinct from the NOT_FOUND outcome for an
unregistered device.  In the code (spec scenario: carol, id 3, against
bob's `dev-1`) the outcome for a device that exists with a different
owner is the very same `Device not found` outcome as for the
unregistered identifier `ghost` — there is no distinct forbidden
result. -/
theorem C3_counterexample :
    getSensorData dbBobDevice 3 "dev-1" 50 = getSensorData dbBobDevice 3 "ghost" 50 ∧
    getSensorData dbBobDevice 3 "dev-1" 50 = SensorDataResponse.deviceNotFound ∧
    (∃ d ∈ dbBobDevice.devices, d.device_id = "dev-1" ∧ d.user_id ≠ 3) ∧
    (∀ d ∈ dbBobDevice.devices, d.device_id ≠ "ghost") := by decide

/-- C3 amended: the device-access decision succeeds (proceeds past the
error) if and only if a device with the given identifier exists and its
registered owner equals the given identity; when the device does not
exist, and equally when it exists with a different owner, the decision
is the single `Device not found` outcome — the two failure cases are
not distinct. -/
theorem C3_amended_collapse (db : DB) (uid : Nat) (did : String) (lim : Nat) :
    ((∃ d ∈ db.devices, d.device_id = did ∧ d.user_id = uid) →
      getSensorData db uid did lim ≠ SensorDataResponse.deviceNotFound) ∧
    ((∀ d ∈ db.devices, d.device_id ≠ did) →
      getSensorData db uid did lim = SensorDataResponse.deviceNotFound) ∧
    ((∀ d ∈ db.devices, d.device_id = did → d.user_id ≠ uid) →
      getSensorData db uid did lim = SensorDataResponse.deviceNotFound) := by
  refine ⟨?_, ?_, ?_⟩
  · intro hex
    unfold getSensorData
    cases hf : db.devices.find? (fun d => d.device_id == did && d.user_id == uid) with
    | none =>
      obtain ⟨d, hd, h1, h2⟩ := hex
      have hnp := List.find?_eq_none.mp hf d hd
      simp [h1, h2] at hnp
    | some d => intro hEq; exact SensorDataResponse.noConfusion hEq
  · intro hall
    unfold getSensorData
    cases hf : db.devices.find? (fun d => d.device_id == did && d.user_id == uid) with
    | none => rfl
    | some d =>
      have hmem := List.mem_of_find?_eq_some hf
      have hpd := List.find?_some hf
      simp only [Bool.and_eq_true, beq_iff_eq] at hpd
      exact absurd hpd.1 (hall d hmem)
  · intro hall
    unfold getSensorData
    cases hf : db.devices.find? (fun d => d.device_id == did && d.user_id == uid) with
    | none => rfl
    | some d =>
      have hmem := List.mem_of_find?_eq_some hf
      have hpd := List.find?_some hf
      simp only [Bool.and_eq_true, beq_iff_eq] at hpd
      exact absurd hpd.2 (hall d hmem hpd.1)

theorem C3_witness :
    getSensorData dbBobDevice 2 "dev-1" 50 ≠ SensorDataResponse.deviceNotFound ∧
    getSensorData dbBobDevice 3 "dev-1" 50 = SensorDataResponse.deviceNotFound ∧
    getSensorData dbBobDevice 3 "ghost" 50 = SensorDataResponse.deviceNotFound :=
  ⟨(C3_amended_collapse dbBobDevice 2 "dev-1" 50).1 (by decide),
   (C3_amended_collapse dbBobDevice 3 "dev-1" 50).2.2 (by decide),
   (C3_amended_collapse dbBobDevice 3 "ghost" 50).2.1 (by decide)⟩

/-- C10: a device-delete request by identity `i` targeting a row whose
owner is a different identity removes nothing (the DELETE's WHERE
clause matches only rows owned by the requester, and by the PRIMARY KEY
constraint the targeted id names only that foreign-owned row), the
database is unchanged, and the response is the same `Device not found`
outcome that any request for a nonexistent device id receives. -/
theorem C10_cross_owner_delete (db : DB) (i rid : Nat) (d : DeviceRow)
    (hmem : d ∈ db.devices) (hid : d.id = rid) (hne : d.user_id ≠ i)
    (huniq : ∀ d2 ∈ db.devices, d2.id = rid → d2 = d) :
    deleteDevice db i rid = (db, DeleteResponse.notFound) ∧
    ∀ db2 : DB, (∀ d2 ∈ db2.devices, d2.id ≠ rid) →
      deleteDevice db2 i rid = (db2, DeleteResponse.notFound) := by
  constructor
  · unfold deleteDevice
    have hkeep : ∀ d2 ∈ db.devices, (!(d2.id == rid && d2.user_id == i)) = true := by
      intro d2 hd2
      by_cases h2 : d2.id = rid
      · have hdd : d2 = d := huniq d2 hd2 h2
        subst hdd
        simp [Bool.not_eq_true', Bool.and_eq_true, beq_iff_eq, hne]
      · simp [Bool.not_eq_true', Bool.and_eq_true, beq_iff_eq, h2]
    rw [List.filter_eq_self.mpr hkeep, if_pos rfl]
  · intro db2 hall
    unfold deleteDevice
    have hkeep : ∀ d2 ∈ db2.devices, (!(d2.id == rid && d2.user_id == i)) = true := by
      intro d2 hd2
      simp [Bool.not_eq_true', Bool.and_eq_true, beq_iff_eq, hall d2 hd2]
    rw [List.filter_eq_self.mpr hkeep, if_pos rfl]

theorem C10_witness :
    deleteDevice dbBobDevice 3 1 = (dbBobDevice, DeleteResponse.notFound) :=
  (C10_cross_owner_delete dbBobDevice 3 1
    { id := 1, user_id := 2, device_name := "Sensor", device_type := "temperature",
      device_id := "dev-1", status := "online" }
    (by decide) rfl (by decide) (by decide)).1

/-- C7: round-trip of the session-token service.  For every identity,
verifying a token issued for it with the process secret returns that
identity when the check happens strictly before the 24-hour expiry
(`tokenLifetime` seconds after issuance, as `expiresIn: '24h'`
configures), and returns the expired-token error once the lifetime has
elapsed. -/
theorem C7_token_roundtrip (secret : String) (id : Nat) (username : String)
    (t0 n1 n2 : Nat) (h1 : n1 < t0 + tokenLifetime) (h2 : t0 + tokenLifetime ≤ n2) :
    jwtVerifyTok secret (jwtSign secret id username t0) n1 =
      VerifyResult.okPayload id username ∧
    jwtVerifyTok secret (jwtSign secret id username t0) n2 =
      VerifyResult.errExpired := by
  constructor
  · simp [jwtVerifyTok, jwtSign, Nat.not_le.mpr h1]
  · simp [jwtVerifyTok, jwtSign, h2]

theorem C7_witness :
    jwtVerifyTok "s" (jwtSign "s" 1 "alice" 0) 100 = VerifyResult.okPayload 1 "alice" ∧
    jwtVerifyTok "s" (jwtSign "s" 1 "alice" 0) 86400 = VerifyResult.errExpired :=
  C7_token_roundtrip "s" 1 "alice" 0 100 86400 (by decide) (by decide)

/-- C9: counterexample.  The claim says the missing-token,
invalid-token and expired-token failures are three outcomes
distinguishable to the caller.  In the code a token whose signature was
not produced with the server secret and a correctly signed token past
its expiry — failures the verifier itself tells apart — are answered by
`authenticateToken` with the selfsame outcome, rendered as the single
response `(403, "Invalid or expired token")`. -/
theorem C9_counterexample :
    jwtVerifyStr "s" forgedTokenStr 200000 = VerifyResult.errInvalidSig ∧
    jwtVerifyStr "s" expiredTokenStr 200000 = VerifyResult.errExpired ∧
    authenticateToken "s" (some ("Bearer " ++ forgedTokenStr)) 200000 =
      authenticateToken "s" (some ("Bearer " ++ expiredTokenStr)) 200000 ∧
    authHttp (authenticateToken "s" (some ("Bearer " ++ forgedTokenStr)) 200000) =
      (403, "Invalid or expired token") := by decide

/-- C9 amended: a request with no bearer token fails with the distinct
missing-token outcome (401, `Access token required`); a request whose
token has a mismatched signature, and equally one whose token is past
expiry, fails with the single invalid-or-expired outcome rendered as
(403, `Invalid or expired token`) — so the caller can distinguish the
missing-token failure, but not the invalid-signature failure from the
expired-token failure. -/
theorem C9_amended_two_outcomes (secret hdr s : String) (now : Nat) (t : Token)
    (hx : extractBearer (some hdr) = some s) (hs : s ≠ "")
    (hdec : decodeToken s = some t)
    (hfail : t.sig ≠ tokenSignature secret t.payloadId t.payloadUsername t.iat t.exp ∨
      t.exp ≤ now) :
    authenticateToken secret none now = AuthResult.missingToken ∧
    authenticateToken secret (some hdr) now = AuthResult.invalidOrExpired ∧
    authHttp (authenticateToken secret (some hdr) now) =
      (403, "Invalid or expired token") := by
  have hv : authenticateToken secret (some hdr) now = AuthResult.invalidOrExpired := by
    simp only [authenticateToken, hx, if_neg hs, jwtVerifyStr, hdec, jwtVerifyTok]
    by_cases hsg : t.sig = tokenSignature secret t.payloadId t.payloadUsername t.iat t.exp
    · have hexp : t.exp ≤ now := hfail.resolve_left (not_not_intro hsg)
      rw [if_pos hsg, if_pos hexp]
    · rw [if_neg hsg]
  refine ⟨rfl, hv, ?_⟩
  rw [hv]
  rfl

theorem C9_witness :
    authenticateToken "s" none 5 = AuthResult.missingToken ∧
    authenticateToken "s" (some ("Bearer " ++ forgedTokenStr)) 5 =
      AuthResult.invalidOrExpired ∧
    authHttp (authenticateToken "s" (some ("Bearer " ++ forgedTokenStr)) 5) =
      (403, "Invalid or expired token") :=
  C9_amended_two_outcomes "s" ("Bearer " ++ forgedTokenStr) forgedTokenStr 5
    { payloadId := 1, payloadUsername := "alice", iat := 0, exp := 86400, sig := "forged" }
    (by decide) (by decide) (by decide) (Or.inl (by decide))
